import Mathlib

/-!
Shallow embedding of the Style-Decor booking server (src/index.js).

Collections are lists of records; MongoDB operations are modelled as:
`findOne q`        = `List.find?` (first matching document),
`updateOne q u`    = update the first matching document, returning a
                     matched/modified acknowledgment,
`insertOne`        = append,
`countDocuments q` = length of the filter,
`find.limit.skip`  = skip then take (skip applies before limit in MongoDB,
                     with limit 0 meaning "no limit").
Optional document fields are `Option` types; timestamps are the `now`
parameter threaded into each handler.
-/

/-- A document of the `users` collection. `work_status` is absent on records
inserted by POST /users, hence `Option`. -/
structure User where
  id : Nat
  email : Option String
  name : String
  role : String
  work_status : Option String
  createdAt : Nat
  last_loggedIn : Nat
deriving Repr, DecidableEq

/-- A document of the `bookings` collection. Decorator identity fields are
set only by the assignment route, hence `Option`. -/
structure Booking where
  id : Nat
  email : String
  service_name : String
  payment_status : String
  service_status : String
  decoratorId : Option Nat
  decoratorName : Option String
  decoratorEmail : Option String
  created_at : Nat
deriving Repr, DecidableEq

/-- A document of the `services` collection. -/
structure Service where
  id : Nat
  service_name : String
  description : String
  price : Nat
deriving Repr, DecidableEq

/-- The database state the claims touch: the users and bookings collections. -/
structure DB where
  users : List User
  bookings : List Booking
deriving Repr, DecidableEq

/-- MongoDB `updateOne`: rewrite the first document matching `q` with `f`,
leaving every other document untouched. -/
def updateFirst (q : α → Bool) (f : α → α) : List α → List α
  | [] => []
  | x :: xs => if q x then f x :: xs else x :: updateFirst q f xs

/-- The matched/modified counts MongoDB acknowledges an `updateOne` with. -/
structure UpdateResult where
  matchedCount : Nat
  modifiedCount : Nat
deriving Repr, DecidableEq

/-- Acknowledgment of `updateOne q f` on `l`: one match if any document
matches, modified only when the rewrite changes the document. -/
def updateOneAck [DecidableEq α] (q : α → Bool) (f : α → α) (l : List α) : UpdateResult :=
  match l.find? q with
  | none => ⟨0, 0⟩
  | some x => ⟨1, if f x = x then 0 else 1⟩

/-- Query `{_id: new ObjectId(id)}` on bookings. -/
def bookingById (id : Nat) : Booking → Bool := fun b => b.id == id

/-- Query `{email}` on users. -/
def userByEmail (e : String) : User → Bool := fun u => u.email == some e

/-- Query `{_id: new ObjectId(id)}` on users. -/
def userById (i : Nat) : User → Bool := fun u => u.id == i

/-- MongoDB cursor `.skip(skip).limit(limit)` (skip before limit; limit 0 =
unlimited). -/
def mongoSkipLimit (skip limit : Nat) (l : List α) : List α :=
  let afterSkip := l.drop skip
  if limit == 0 then afterSkip else afterSkip.take limit

/-- Rewrite `{$set: {service_status}}` of the decorator status route. -/
def setStatus (s : String) : Booking → Booking :=
  fun b => { b with service_status := s }

/-- Rewrite `{$set: {work_status: "available"}}`. -/
def setAvailable : User → User :=
  fun u => { u with work_status := some "available" }

/-- Rewrite `{$set: {work_status: "in_service"}}`. -/
def setInService : User → User :=
  fun u => { u with work_status := some "in_service" }

/-- Rewrite `{$set: {service_status: "assigned", decoratorId, decoratorName,
decoratorEmail}}` of the assignment route. -/
def assignFields (did : Nat) (dname demail : String) : Booking → Booking :=
  fun b => { b with
    service_status := "assigned",
    decoratorId := some did,
    decoratorName := some dname,
    decoratorEmail := some demail }

/-- Handler of PATCH /services/decorators/:id (after the JWT and decorator
guards): always writes the submitted `service_status` into the booking, then,
when the status is "completed", additionally sets the calling decorator's
`work_status` to "available" and responds with that second acknowledgment;
otherwise it responds with the booking acknowledgment. -/
def patchServicesDecorators (tokenEmail : String) (id : Nat) (service_status : String)
    (db : DB) : DB × UpdateResult :=
  let bookings' := updateFirst (bookingById id) (setStatus service_status) db.bookings
  let result := updateOneAck (bookingById id) (setStatus service_status) db.bookings
  if service_status == "completed" then
    let users' := updateFirst (userByEmail tokenEmail) setAvailable db.users
    let decoratorResult := updateOneAck (userByEmail tokenEmail) setAvailable db.users
    ({ users := users', bookings := bookings' }, decoratorResult)
  else
    ({ users := db.users, bookings := bookings' }, result)

/-- Handler of PATCH /booking/:id/assigned (after the JWT and admin guards):
sets `service_status := "assigned"` plus the decorator identity fields on the
booking, then sets the named decorator's `work_status` to "in_service",
responding with the decorator acknowledgment. -/
def patchBookingAssigned (id did : Nat) (dname demail : String) (db : DB) :
    DB × UpdateResult :=
  let bookings' := updateFirst (bookingById id) (assignFields did dname demail) db.bookings
  let users' := updateFirst (userById did) setInService db.users
  let decoratorResult := updateOneAck (userById did) setInService db.users
  ({ users := users', bookings := bookings' }, decoratorResult)

/-- Handler of POST /booking (after the JWT guard): overwrites the caller's
`payment_status`, `service_status` and `created_at` fields and inserts. -/
def postBooking (body : Booking) (now : Nat) (db : DB) : DB :=
  { db with bookings := db.bookings ++
      [{ body with payment_status := "unpaid", service_status := "pending",
                   created_at := now }] }

/-- Request body of POST /users as the handler consumes it (an email may be
absent; `role`, `createdAt` and `last_loggedIn` are overwritten by the
handler before use). -/
structure UserBody where
  email : Option String
  name : String
deriving Repr, DecidableEq

/-- The lookup query POST /users builds: `{email}` when the body carries an
email, the empty query `{}` (matching every document) otherwise. -/
def bodyQuery : Option String → User → Bool
  | some e => fun u => u.email == some e
  | none => fun _ => true

/-- Handler of POST /users: if some document matches the query, `$set` only
its `last_loggedIn` timestamp; otherwise insert the body with role "user"
and both timestamps stamped. -/
def postUsers (body : UserBody) (newId now : Nat) (users : List User) : List User :=
  match users.find? (bodyQuery body.email) with
  | some _ =>
      updateFirst (bodyQuery body.email) (fun u => { u with last_loggedIn := now }) users
  | none =>
      users ++ [{ id := newId, email := body.email, name := body.name,
                  role := "user", work_status := none,
                  createdAt := now, last_loggedIn := now }]

/-- The filter GET /users builds: always excludes the requesting admin's own
email (`{$ne}` also matches documents without an email), with optional
equality filters on role and work_status. -/
def getUsersQuery (adminEmail : String) (role work_status : Option String) :
    User → Bool :=
  fun u =>
    (!(u.email == some adminEmail))
    && (match role with | some r => u.role == r | none => true)
    && (match work_status with | some w => u.work_status == some w | none => true)

/-- Handler of GET /users (after the JWT and admin guards): paginated filtered
list plus the pagination-independent total count. -/
def getUsers (adminEmail : String) (limit skip : Nat) (role work_status : Option String)
    (users : List User) : List User × Nat :=
  let filtered := users.filter (getUsersQuery adminEmail role work_status)
  (mongoSkipLimit skip limit filtered, filtered.length)

/-- One-pass insert of insertion sort, keeping earlier equal keys first. -/
def insertSorted (le : α → α → Bool) (x : α) : List α → List α
  | [] => [x]
  | y :: ys => if le x y then x :: y :: ys else y :: insertSorted le x ys

/-- Stable sort by a boolean comparison, modelling the store's `sort` cursor
option. -/
def sortBy (le : α → α → Bool) : List α → List α
  | [] => []
  | x :: xs => insertSorted le x (sortBy le xs)

/-- A BSON value a caller-chosen sort field can evaluate to on a service
document; sorting compares missing fields before numbers before strings, in
MongoDB's type order. -/
inductive BsonVal where
  | missing
  | num (n : Nat)
  | str (s : String)
deriving Repr, DecidableEq

/-- Lexicographic comparison of code-point lists, the order string sort keys
compare in. -/
def charListLe : List Char → List Char → Bool
  | [], _ => true
  | _ :: _, [] => false
  | a :: as, b :: bs =>
    if a.toNat < b.toNat then true
    else if b.toNat < a.toNat then false
    else charListLe as bs

/-- MongoDB comparison on sort keys: type order first, then value order. -/
def bsonLe : BsonVal → BsonVal → Bool
  | .missing, _ => true
  | .num _, .missing => false
  | .num a, .num b => a ≤ b
  | .num _, .str _ => true
  | .str _, .missing => false
  | .str _, .num _ => false
  | .str a, .str b => charListLe a.toList b.toList

/-- The sort key `sortOption[sort]` denotes on a service document. -/
def serviceField (field : String) (s : Service) : BsonVal :=
  if field == "service_name" then .str s.service_name
  else if field == "description" then .str s.description
  else if field == "price" then .num s.price
  else if field == "_id" then .num s.id
  else .missing

/-- Case-folded code point of a character: ASCII upper-case letters map to
their lower-case code, everything else is itself. -/
def lowerNat (c : Char) : Nat :=
  if 65 ≤ c.toNat && c.toNat ≤ 90 then c.toNat + 32 else c.toNat

/-- Case-insensitive character match of the `$options: "i"` regex flag. -/
def eqCI (a b : Char) : Bool := lowerNat a == lowerNat b

/-- True when `hay` starts with `pat`, case-insensitively. -/
def prefixAt : List Char → List Char → Bool
  | [], _ => true
  | _ :: _, [] => false
  | p :: ps, c :: cs => eqCI p c && prefixAt ps cs

/-- True when `hay` contains `pat` anywhere, case-insensitively. -/
def substrAt (pat : List Char) : List Char → Bool
  | [] => prefixAt pat []
  | c :: cs => prefixAt pat (c :: cs) || substrAt pat cs

/-- The `{$regex: pat, $options: "i"}` filter for a literal pattern:
case-insensitive substring containment. -/
def strContainsCI (hay pat : String) : Bool :=
  substrAt pat.toList hay.toList

/-- Handler of GET /services: filter by case-insensitive name search when
`searchText` is non-empty, then sort by the caller-chosen field and order. -/
def getServices (searchText sortField order : String) (services : List Service) :
    List Service :=
  let le : Service → Service → Bool :=
    if order == "asc" then fun a b => bsonLe (serviceField sortField a) (serviceField sortField b)
    else fun a b => bsonLe (serviceField sortField b) (serviceField sortField a)
  let filtered :=
    if searchText == "" then services
    else services.filter (fun s => strContainsCI s.service_name searchText)
  sortBy le filtered

/-- Outcome of a role guard: short-circuit with Forbidden, or pass control on. -/
inductive GuardResult where
  | forbidden
  | proceed
deriving Repr, DecidableEq

/-- The `verifyAdmin` middleware: look up the authenticated email; Forbidden
when no user is found or the stored role is not "admin". -/
def verifyAdmin (tokenEmail : String) (users : List User) : GuardResult :=
  match users.find? (userByEmail tokenEmail) with
  | none => .forbidden
  | some u => if u.role == "admin" then .proceed else .forbidden

/-- Response of a guarded route: the Forbidden error body, or the handler's
own response. -/
inductive RouteResult (ρ : Type) where
  | forbidden
  | ok (r : ρ)
deriving Repr, DecidableEq

/-- An admin-guarded route: run `verifyAdmin` and only on `proceed` run the
handler against the database. -/
def runAdminRoute {ρ : Type} (tokenEmail : String) (handler : DB → DB × ρ)
    (db : DB) : DB × RouteResult ρ :=
  match verifyAdmin tokenEmail db.users with
  | .forbidden => (db, .forbidden)
  | .proceed => ((handler db).1, .ok (handler db).2)

/-- A concrete decorator currently in service, for concrete evaluations. -/
def exUser : User :=
  { id := 7, email := some "d@x", name := "Dana", role := "decorator",
    work_status := some "in_service", createdAt := 0, last_loggedIn := 0 }

/-- A concrete booking assigned to `exUser`. -/
def exBooking : Booking :=
  { id := 1, email := "c@x", service_name := "Stage", payment_status := "unpaid",
    service_status := "assigned", decoratorId := some 7, decoratorName := some "Dana",
    decoratorEmail := some "d@x", created_at := 0 }

/-- A concrete database with one decorator and one booking. -/
def exDB : DB := { users := [exUser], bookings := [exBooking] }

/-- A concrete POST /users body carrying `exUser`'s email. -/
def exBody : UserBody := { email := some "d@x", name := "Dana" }

/-- A concrete POST /users body with no email field. -/
def exBodyNoEmail : UserBody := { email := none, name := "Sam" }

/-- A concrete handler observing and clearing the database, to exhibit that a
guard really prevents the handler from running. -/
def exHandler : DB → DB × Nat :=
  fun db => ({ users := [], bookings := [] }, db.users.length)

/-- A concrete service whose name contains "chair" case-insensitively. -/
def exService : Service :=
  { id := 1, service_name := "Arm Chair", description := "wood", price := 50 }

/-- A concrete service whose name does not contain "chair". -/
def exService2 : Service :=
  { id := 2, service_name := "Table", description := "oak", price := 80 }

theorem length_updateFirst (q : α → Bool) (f : α → α) (l : List α) :
    (updateFirst q f l).length = l.length := by
  induction l with
  | nil => rfl
  | cons x xs ih =>
    simp only [updateFirst]
    split <;> simp [ih]

theorem find?_updateFirst (q : α → Bool) (f : α → α) (l : List α)
    (hq : ∀ x, q x = true → q (f x) = true) :
    (updateFirst q f l).find? q = (l.find? q).map f := by
  induction l with
  | nil => rfl
  | cons x xs ih =>
    by_cases hx : q x = true
    · simp [updateFirst, hx, List.find?_cons_of_pos, hq x hx]
    · have hx' : q x = false := by simpa using hx
      simp [updateFirst, hx', List.find?_cons_of_neg, ih]

theorem find?_updateFirst_map {β : Type} (q : α → Bool) (f : α → α) (g : α → β)
    (v : β) (l : List α)
    (hq : ∀ x, q x = true → q (f x) = true)
    (hg : ∀ x, g (f x) = v)
    (hs : (l.find? q).isSome = true) :
    ((updateFirst q f l).find? q).map g = some v := by
  rw [find?_updateFirst q f l hq]
  obtain ⟨x, hx⟩ := Option.isSome_iff_exists.mp hs
  simp [hx, hg]

theorem zip_self_mem {l : List α} {p : α × α} (h : p ∈ l.zip l) : p.1 = p.2 := by
  induction l with
  | nil => simp at h
  | cons x xs ih =>
    simp only [List.zip_cons_cons, List.mem_cons] at h
    rcases h with h | h
    · simp [h]
    · exact ih h

theorem updateFirst_pointwise (q : α → Bool) (f : α → α) (l : List α)
    (p : α × α) (h : p ∈ (updateFirst q f l).zip l) :
    p.1 = p.2 ∨ p.1 = f p.2 := by
  induction l with
  | nil => simp [updateFirst] at h
  | cons x xs ih =>
    simp only [updateFirst] at h
    split at h
    · simp only [List.zip_cons_cons, List.mem_cons] at h
      rcases h with h | h
      · right; simp [h]
      · left; exact zip_self_mem h
    · simp only [List.zip_cons_cons, List.mem_cons] at h
      rcases h with h | h
      · left; simp [h]
      · exact ih h

theorem patchCompleted_bookings (e : String) (id : Nat) (db : DB) :
    (patchServicesDecorators e id "completed" db).1.bookings
      = updateFirst (bookingById id) (setStatus "completed") db.bookings := by
  simp [patchServicesDecorators]

theorem patchCompleted_users (e : String) (id : Nat) (db : DB) :
    (patchServicesDecorators e id "completed" db).1.users
      = updateFirst (userByEmail e) setAvailable db.users := by
  simp [patchServicesDecorators]

theorem patchCompleted_resp (e : String) (id : Nat) (db : DB) :
    (patchServicesDecorators e id "completed" db).2
      = updateOneAck (userByEmail e) setAvailable db.users := by
  simp [patchServicesDecorators]

theorem completed_booking_status (e : String) (id : Nat) (db : DB)
    (hb : (db.bookings.find? (bookingById id)).isSome = true) :
    ((patchServicesDecorators e id "completed" db).1.bookings.find? (bookingById id)).map
      Booking.service_status = some "completed" := by
  rw [patchCompleted_bookings]
  exact find?_updateFirst_map _ _ _ _ _ (fun _ h => h) (fun _ => rfl) hb

theorem completed_decorator_status (e : String) (id : Nat) (db : DB)
    (hu : (db.users.find? (userByEmail e)).isSome = true) :
    ((patchServicesDecorators e id "completed" db).1.users.find? (userByEmail e)).map
      User.work_status = some (some "available") := by
  rw [patchCompleted_users]
  exact find?_updateFirst_map _ _ _ _ _ (fun _ h => h) (fun _ => rfl) hu

/-- C1: a decorator-driven PATCH /services/decorators/:id carrying
service_status "completed", on an existing booking and an existing calling
decorator, leaves the booking with service_status "completed" and the
decorator's user record with work_status "available". -/
theorem claim_C1_completed_sets_both (e : String) (id : Nat) (db : DB)
    (hb : (db.bookings.find? (bookingById id)).isSome = true)
    (hu : (db.users.find? (userByEmail e)).isSome = true) :
    (((patchServicesDecorators e id "completed" db).1.bookings.find? (bookingById id)).map
      Booking.service_status = some "completed")
    ∧ (((patchServicesDecorators e id "completed" db).1.users.find? (userByEmail e)).map
      User.work_status = some (some "available")) :=
  ⟨completed_booking_status e id db hb, completed_decorator_status e id db hu⟩

theorem claim_C1_witness :
    ((exDB.bookings.find? (bookingById 1)).isSome = true)
    ∧ ((exDB.users.find? (userByEmail "d@x")).isSome = true)
    ∧ ((((patchServicesDecorators "d@x" 1 "completed" exDB).1.bookings.find?
          (bookingById 1)).map Booking.service_status = some "completed")
       ∧ (((patchServicesDecorators "d@x" 1 "completed" exDB).1.users.find?
          (userByEmail "d@x")).map User.work_status = some (some "available"))) :=
  ⟨by decide, by decide,
    claim_C1_completed_sets_both "d@x" 1 exDB (by decide) (by decide)⟩

/-- C2, counterexample: on a concrete database the "completed" transition DOES
persist the booking-status write — the booking ends up "completed" — and at
the same time frees the decorator, so "either the booking is updated or the
decorator is freed, never both" is false. -/
theorem claim_C2_counterexample :
    (((patchServicesDecorators "d@x" 1 "completed" exDB).1.bookings.find?
        (bookingById 1)).map Booking.service_status = some "completed")
    ∧ (((patchServicesDecorators "d@x" 1 "completed" exDB).1.users.find?
        (userByEmail "d@x")).map User.work_status = some (some "available")) := by
  decide

/-- C2, amended: for a "completed" transition the handler persists BOTH the
booking's completed status and the decorator's availability; only in its
response does it discard the booking write's acknowledgment, returning the
decorator-update acknowledgment instead. -/
theorem claim_C2_amended_both_persist (e : String) (id : Nat) (db : DB)
    (hb : (db.bookings.find? (bookingById id)).isSome = true)
    (hu : (db.users.find? (userByEmail e)).isSome = true) :
    (((patchServicesDecorators e id "completed" db).1.bookings.find? (bookingById id)).map
      Booking.service_status = some "completed")
    ∧ (((patchServicesDecorators e id "completed" db).1.users.find? (userByEmail e)).map
      User.work_status = some (some "available"))
    ∧ (patchServicesDecorators e id "completed" db).2
        = updateOneAck (userByEmail e) setAvailable db.users :=
  ⟨completed_booking_status e id db hb, completed_decorator_status e id db hu,
    patchCompleted_resp e id db⟩

theorem claim_C2_witness :
    ((exDB.bookings.find? (bookingById 1)).isSome = true)
    ∧ ((exDB.users.find? (userByEmail "d@x")).isSome = true)
    ∧ (patchServicesDecorators "d@x" 1 "completed" exDB).2
        = updateOneAck (userByEmail "d@x") setAvailable exDB.users :=
  ⟨by decide, by decide,
    (claim_C2_amended_both_persist "d@x" 1 exDB (by decide) (by decide)).2.2⟩

/-- C3: an admin PATCH /booking/:id/assigned on an existing booking and an
existing decorator leaves the booking with service_status "assigned" and the
decorator identity fields set, and the decorator's user record with
work_status "in_service". -/
theorem claim_C3_assignment (id did : Nat) (dname demail : String) (db : DB)
    (hb : (db.bookings.find? (bookingById id)).isSome = true)
    (hd : (db.users.find? (userById did)).isSome = true) :
    (((patchBookingAssigned id did dname demail db).1.bookings.find? (bookingById id)).map
      (fun b => (b.service_status, b.decoratorId, b.decoratorName, b.decoratorEmail))
      = some ("assigned", some did, some dname, some demail))
    ∧ (((patchBookingAssigned id did dname demail db).1.users.find? (userById did)).map
      User.work_status = some (some "in_service")) := by
  constructor
  · exact find?_updateFirst_map _ _ _ _ _ (fun _ h => h) (fun _ => rfl) hb
  · exact find?_updateFirst_map _ _ _ _ _ (fun _ h => h) (fun _ => rfl) hd

theorem claim_C3_witness :
    ((exDB.bookings.find? (bookingById 1)).isSome = true)
    ∧ ((exDB.users.find? (userById 7)).isSome = true)
    ∧ (((patchBookingAssigned 1 7 "Dana" "d@x" exDB).1.users.find? (userById 7)).map
        User.work_status = some (some "in_service")) :=
  ⟨by decide, by decide,
    (claim_C3_assignment 1 7 "Dana" "d@x" exDB (by decide) (by decide)).2⟩

/-- C4: POST /booking inserts exactly one record, and whatever the caller
supplied for payment_status and service_status, the inserted record carries
payment_status "unpaid", service_status "pending" and the creation
timestamp. -/
theorem claim_C4_booking_defaults (body : Booking) (now : Nat) (db : DB) :
    ∃ b : Booking, (postBooking body now db).bookings = db.bookings ++ [b]
      ∧ b.payment_status = "unpaid" ∧ b.service_status = "pending"
      ∧ b.created_at = now :=
  ⟨_, rfl, rfl, rfl, rfl⟩

/-- C5: a POST /users whose email matches an existing user only touches
last_loggedIn — no record is inserted, every record keeps its role, every
record is either unchanged or differs only in last_loggedIn, and the matched
record's last_loggedIn becomes now. -/
theorem claim_C5_existing_email (body : UserBody) (e : String) (newId now : Nat)
    (users : List User)
    (he : body.email = some e)
    (hex : (users.find? (userByEmail e)).isSome = true) :
    (postUsers body newId now users).length = users.length
    ∧ (∀ p ∈ (postUsers body newId now users).zip users, p.1.role = p.2.role)
    ∧ (∀ p ∈ (postUsers body newId now users).zip users,
        p.1 = p.2 ∨ p.1 = { p.2 with last_loggedIn := now })
    ∧ ((postUsers body newId now users).find? (userByEmail e)).map User.last_loggedIn
        = some now := by
  have he' : bodyQuery body.email = userByEmail e := by rw [he]; rfl
  obtain ⟨u, hu⟩ := Option.isSome_iff_exists.mp hex
  have hpost : postUsers body newId now users
      = updateFirst (userByEmail e) (fun v => { v with last_loggedIn := now }) users := by
    unfold postUsers
    rw [he', hu]
  refine ⟨?_, ?_, ?_, ?_⟩
  · rw [hpost]; exact length_updateFirst _ _ _
  · intro p hp
    rw [hpost] at hp
    rcases updateFirst_pointwise _ _ _ _ hp with h | h <;> rw [h]
  · intro p hp
    rw [hpost] at hp
    exact updateFirst_pointwise _ _ _ _ hp
  · rw [hpost]
    exact find?_updateFirst_map _ _ _ _ _ (fun _ h => h) (fun _ => rfl) hex

theorem claim_C5_witness :
    (exBody.email = some "d@x")
    ∧ (([exUser].find? (userByEmail "d@x")).isSome = true)
    ∧ (postUsers exBody 99 5 [exUser]).length = [exUser].length :=
  ⟨rfl, by decide,
    (claim_C5_existing_email exBody "d@x" 99 5 [exUser] rfl (by decide)).1⟩

theorem mem_insertSorted (le : α → α → Bool) (x a : α) (l : List α) :
    a ∈ insertSorted le x l ↔ a = x ∨ a ∈ l := by
  induction l with
  | nil => simp [insertSorted]
  | cons y ys ih =>
    simp only [insertSorted]
    split
    · simp [List.mem_cons]
    · simp only [List.mem_cons, ih]
      tauto

theorem mem_sortBy (le : α → α → Bool) (a : α) (l : List α) :
    a ∈ sortBy le l ↔ a ∈ l := by
  induction l with
  | nil => simp [sortBy]
  | cons x xs ih =>
    simp [sortBy, mem_insertSorted, ih]

/-- C6: an admin GET /users with limit 2 and skip 2 returns at most 2 records,
exactly the window after the first 2 filtered records (the limit-0/skip-0
call returns the whole filtered list), while the returned total is the full
filtered count and is independent of limit and skip. -/
theorem claim_C6_pagination (adminEmail : String) (role ws : Option String)
    (users : List User) :
    (getUsers adminEmail 2 2 role ws users).1.length ≤ 2
    ∧ (getUsers adminEmail 2 2 role ws users).1
        = ((getUsers adminEmail 0 0 role ws users).1.drop 2).take 2
    ∧ (getUsers adminEmail 2 2 role ws users).2
        = (getUsers adminEmail 0 0 role ws users).1.length
    ∧ (∀ limit skip : Nat, (getUsers adminEmail limit skip role ws users).2
        = (getUsers adminEmail 2 2 role ws users).2) := by
  refine ⟨?_, rfl, rfl, fun _ _ => rfl⟩
  have h : (getUsers adminEmail 2 2 role ws users).1
      = ((users.filter (getUsersQuery adminEmail role ws)).drop 2).take 2 := rfl
  rw [h, List.length_take]
  exact Nat.min_le_left _ _

/-- C7: on an admin-guarded route, when the authenticated email has no user
record or the stored role is not "admin", the response is Forbidden and the
handler never runs: the database is returned untouched, whatever the handler
would have done. -/
theorem claim_C7_forbidden {ρ : Type} (e : String) (handler : DB → DB × ρ) (db : DB)
    (h : (db.users.find? (userByEmail e)).elim true (fun u => u.role != "admin") = true) :
    runAdminRoute e handler db = (db, RouteResult.forbidden) := by
  unfold runAdminRoute verifyAdmin
  cases hf : db.users.find? (userByEmail e) with
  | none => rfl
  | some u =>
    rw [hf] at h
    simp only [Option.elim] at h
    have hr : (u.role == "admin") = false := by
      simpa using h
    simp [hr]

theorem claim_C7_witness :
    ((exDB.users.find? (userByEmail "d@x")).elim true (fun u => u.role != "admin") = true)
    ∧ runAdminRoute "d@x" exHandler exDB = (exDB, RouteResult.forbidden) :=
  ⟨by decide, claim_C7_forbidden "d@x" exHandler exDB (by decide)⟩

/-- C8: GET /services with searchText "chair" (default sort) is sound and
complete for the case-insensitive name search: every returned service's name
contains "chair" case-insensitively, and every stored service whose name
contains "chair" case-insensitively is returned. -/
theorem claim_C8_search (services : List Service) (s : Service) :
    (s ∈ getServices "chair" "service_name" "asc" services
      → strContainsCI s.service_name "chair" = true)
    ∧ (s ∈ services → strContainsCI s.service_name "chair" = true
      → s ∈ getServices "chair" "service_name" "asc" services) := by
  have hg : getServices "chair" "service_name" "asc" services
      = sortBy (fun a b => bsonLe (serviceField "service_name" a)
                  (serviceField "service_name" b))
          (services.filter (fun t => strContainsCI t.service_name "chair")) := rfl
  constructor
  · intro hs
    rw [hg, mem_sortBy] at hs
    exact (List.mem_filter.mp hs).2
  · intro hmem hci
    rw [hg, mem_sortBy]
    exact List.mem_filter.mpr ⟨hmem, hci⟩

theorem claim_C8_witness :
    (exService ∈ getServices "chair" "service_name" "asc" [exService, exService2])
    ∧ strContainsCI exService.service_name "chair" = true :=
  ⟨by decide, (claim_C8_search [exService, exService2] exService).1 (by decide)⟩

/-- C9: a POST /users with no email in the body builds the empty query, which
matches the first stored user; so on a non-empty collection the handler
updates that arbitrary user's last_loggedIn and inserts nothing — the caller
is never registered. -/
theorem claim_C9_no_email (body : UserBody) (newId now : Nat) (x : User)
    (xs : List User)
    (he : body.email = none) :
    postUsers body newId now (x :: xs) = { x with last_loggedIn := now } :: xs
    ∧ (postUsers body newId now (x :: xs)).length = (x :: xs).length := by
  have hq : bodyQuery body.email = fun _ => true := by rw [he]; rfl
  have hpost : postUsers body newId now (x :: xs)
      = { x with last_loggedIn := now } :: xs := by
    unfold postUsers
    rw [hq]
    rfl
  exact ⟨hpost, by rw [hpost]; simp⟩

theorem claim_C9_witness :
    (exBodyNoEmail.email = none)
    ∧ postUsers exBodyNoEmail 42 9 [exUser] = [{ exUser with last_loggedIn := 9 }] :=
  ⟨rfl, (claim_C9_no_email exBodyNoEmail 42 9 exUser [] rfl).1⟩

/-- C10: a decorator-driven status update whose status is not "completed"
leaves the users collection entirely unchanged and responds with the booking
update's acknowledgment. -/
theorem claim_C10_non_completed (e : String) (id : Nat) (s : String) (db : DB)
    (hs : s ≠ "completed") :
    (patchServicesDecorators e id s db).1.users = db.users
    ∧ (patchServicesDecorators e id s db).2
        = updateOneAck (bookingById id) (setStatus s) db.bookings := by
  have hb : (s == "completed") = false := by simpa using hs
  simp [patchServicesDecorators, hb]

theorem claim_C10_witness :
    ("assigned" ≠ "completed")
    ∧ (patchServicesDecorators "d@x" 1 "assigned" exDB).1.users = exDB.users :=
  ⟨by decide, (claim_C10_non_completed "d@x" 1 "assigned" exDB (by decide)).1⟩
